import Mathlib

/-!
Verification of the fifo package (client/lib/fifo/fifo_unix.go): a thin
wrapper around POSIX named-pipe primitives.  The Go functions are embedded
shallowly: the filesystem and the open(2)/mkfifo(2)/stat(2)/remove syscalls
are modelled as an oracle structure `FS` (each syscall is consulted at most
once per call, exactly as the straight-line Go code does), Go `error`
values as the inductive `GoError`, and `context.Context` as `Ctx`.
`openFifo` additionally returns the list of filesystem operations it
performed, so that trace properties (which syscalls ran, with which
arguments) can be stated.
-/

namespace Fifo

/-- Go error values, by shape.  `errNotExist`, `errExist`, `errClosed` are
the distinguished sentinel errors (`os.ErrNotExist`, `os.ErrExist`,
`os.ErrClosed`); a constructor application is identical to the sentinel
only when it is literally that constructor, mirroring Go interface
identity comparison against a sentinel.  `pathError` models
`*os.PathError` with its `Op`, `Path` and `Err` fields; `wrapped` models
`errors.Wrapf` (a message layered over a cause); `other` covers any
further error value. -/
inductive GoError where
  | errNotExist : GoError
  | errExist : GoError
  | errClosed : GoError
  | errPermission : GoError
  | canceled : GoError
  | pathError (op : String) (path : String) (cause : GoError) : GoError
  | wrapped (msg : String) (cause : GoError) : GoError
  | other (tag : String) : GoError
deriving DecidableEq, Repr

/-- Is this error an `errors.Wrapf` wrapper? -/
def GoError.isWrapped : GoError → Bool
  | .wrapped _ _ => true
  | _ => false

/-- Go `os.underlyingError`: unwrap one `*os.PathError` layer (the only
path-operation error shape in this model), otherwise the error itself. -/
def underlyingError : GoError → GoError
  | .pathError _ _ e => e
  | e => e

/-- Go `os.IsNotExist`: the error, after unwrapping one path-error layer,
is the not-exist sentinel. -/
def isNotExist (e : GoError) : Bool :=
  underlyingError e == GoError.errNotExist

/-- Go `os.IsExist`: the error, after unwrapping one path-error layer, is
the already-exists sentinel. -/
def isExist (e : GoError) : Bool :=
  underlyingError e == GoError.errExist

/-- An open file handle (`*os.File` viewed as `io.ReadWriteCloser`). -/
structure Handle where
  fd : Nat
deriving DecidableEq, Repr

/-- `context.Context`, as far as this package can observe it: whether it
has been cancelled. -/
structure Ctx where
  canceled : Bool
deriving DecidableEq, Repr

/-- `context.Background()`: never cancelled. -/
def Ctx.background : Ctx := ⟨false⟩

/-- A context whose cancellation has already been requested. -/
def Ctx.canceledCtx : Ctx := ⟨true⟩

/-- Oracle for the filesystem syscalls the package performs.  Each field
gives the outcome of one syscall on given arguments; `none` (for
`Option`) means success.  The straight-line Go code consults each at most
once per call, so an oracle is an adequate model of the filesystem
state. -/
structure FS where
  stat : String → Option GoError
  mkfifoSys : String → Nat → Option GoError
  openFile : String → Nat → Nat → Except GoError Handle
  remove : String → Option GoError

/-- Trace entries: the filesystem operations `openFifo` performs. -/
inductive FsOp where
  | statOp (path : String) : FsOp
  | mkfifoOp (path : String) (mode : Nat) : FsOp
  | openOp (path : String) (flags : Nat) : FsOp
deriving DecidableEq, Repr

/-- `syscall.O_RDONLY` on linux/amd64. -/
def O_RDONLY : Nat := 0
/-- `syscall.O_WRONLY` on linux/amd64. -/
def O_WRONLY : Nat := 1
/-- `syscall.O_RDWR` on linux/amd64. -/
def O_RDWR : Nat := 2
/-- `syscall.O_CREAT` on linux/amd64 (0o100). -/
def O_CREAT : Nat := 64
/-- `syscall.O_NONBLOCK` on linux/amd64 (0o4000). -/
def O_NONBLOCK : Nat := 2048
/-- `os.ModePerm` (0o777): the permission-only bits of a file mode. -/
def ModePerm : Nat := 511
/-- The 64-bit value of Go `^syscall.O_CREAT` reinterpreted as an
unsigned mask: all bits of a 64-bit int except the `O_CREAT` bit.
`flag &= ^syscall.O_CREAT` on a non-negative `flag` is
`flag &&& NOT_O_CREAT`. -/
def NOT_O_CREAT : Nat := 2 ^ 64 - 1 - O_CREAT

/-- `mkfifo(path string, mode uint32)`: delegates to `unix.Mkfifo`. -/
def mkfifo (fs : FS) (path : String) (mode : Nat) : Option GoError :=
  fs.mkfifoSys path mode

/-- The tail of `openFifo` after the create-or-verify phase: strip the
creation flag and perform the actual open (`os.OpenFile(fn, flag, 0)`),
appending the open to the trace. -/
def finishOpen (fs : FS) (fn : String) (flag : Nat) (tr : List FsOp) :
    Except GoError Handle × List FsOp :=
  let flag2 := flag &&& NOT_O_CREAT
  (fs.openFile fn flag2 0, tr ++ [FsOp.openOp fn flag2])

/-- `openFifo(ctx, fn, flag, perm)`: probe the path with `os.Stat`; if the
probe fails with not-exist and `O_CREAT` is set, create the fifo with the
permission bits of `perm` (a uint32 conversion of `perm & os.ModePerm`),
treating an already-exists failure as success and wrapping any other
creation failure with the message `error creating fifo <fn>`; if the
probe fails otherwise, return the probe error as is; then clear `O_CREAT`
from the flags and open the path.  The Go function never reads `ctx`. -/
def openFifo (ctx : Ctx) (fs : FS) (fn : String) (flag : Nat) (perm : Nat) :
    Except GoError Handle × List FsOp :=
  match fs.stat fn with
  | some err =>
      if isNotExist err && (flag &&& O_CREAT != 0) then
        -- Go: uint32(perm & os.ModePerm).  The mask keeps the value below
        -- 2^9 < 2^32, so the uint32 conversion is lossless and elided.
        let mode := perm &&& ModePerm
        match mkfifo fs fn mode with
        | some cerr =>
            if !isExist cerr then
              (Except.error (GoError.wrapped ("error creating fifo " ++ fn) cerr),
               [FsOp.statOp fn, FsOp.mkfifoOp fn mode])
            else
              finishOpen fs fn flag [FsOp.statOp fn, FsOp.mkfifoOp fn mode]
        | none => finishOpen fs fn flag [FsOp.statOp fn, FsOp.mkfifoOp fn mode]
      else
        (Except.error err, [FsOp.statOp fn])
  | none => finishOpen fs fn flag [FsOp.statOp fn]

/-- `New(path)`: create a fifo at the path and open it for reading,
non-blocking, mode 0600, with a background context. -/
def New (fs : FS) (path : String) : Except GoError Handle × List FsOp :=
  openFifo Ctx.background fs path (O_RDONLY ||| O_CREAT ||| O_NONBLOCK) 0o600

/-- `Open(path)`: open an existing fifo for writing (blocking), mode 0600,
with a background context. -/
def Open (fs : FS) (path : String) : Except GoError Handle × List FsOp :=
  openFifo Ctx.background fs path O_WRONLY 0o600

/-- `Remove(path)`: `return os.Remove(path)`. -/
def Remove (fs : FS) (path : String) : Option GoError :=
  fs.remove path

/-- `IsClosedErr(err)`: type-assert to `*os.PathError` and compare its
`Err` field against the sentinel `os.ErrClosed` by identity.  `none`
models a nil error. -/
def IsClosedErr : Option GoError → Bool
  | some (GoError.pathError _ _ cause) => cause == GoError.errClosed
  | _ => false

/-! Concrete filesystems used to evaluate the functions on explicit
inputs. -/

/-- A filesystem on which probing any path fails with a permission
error. -/
def fsProbeFail : FS :=
  { stat := fun _ => some GoError.errPermission
    mkfifoSys := fun _ _ => none
    openFile := fun _ _ _ => Except.ok ⟨3⟩
    remove := fun _ => none }

/-- A filesystem on which every path exists but every open fails with a
permission error. -/
def fsExistsOpenFail : FS :=
  { stat := fun _ => none
    mkfifoSys := fun _ _ => none
    openFile := fun _ _ _ => Except.error GoError.errPermission
    remove := fun _ => none }

/-- A filesystem on which no path exists: probes fail with a not-exist
path error, opens fail with a not-exist path error, removal fails with
the not-exist sentinel. -/
def fsAbsent : FS :=
  { stat := fun p => some (GoError.pathError "stat" p GoError.errNotExist)
    mkfifoSys := fun _ _ => none
    openFile := fun p _ _ => Except.error (GoError.pathError "open" p GoError.errNotExist)
    remove := fun _ => some GoError.errNotExist }

/-- A filesystem exhibiting the creation race: the probe reports
not-exist, but by the time the creation syscall runs the entry exists;
the subsequent open succeeds. -/
def fsRace : FS :=
  { stat := fun p => some (GoError.pathError "stat" p GoError.errNotExist)
    mkfifoSys := fun _ _ => some GoError.errExist
    openFile := fun _ _ _ => Except.ok ⟨5⟩
    remove := fun _ => none }

/-- A filesystem on which every syscall succeeds. -/
def fsOk : FS :=
  { stat := fun _ => none
    mkfifoSys := fun _ _ => none
    openFile := fun _ _ _ => Except.ok ⟨7⟩
    remove := fun _ => none }

/-- Masking with `NOT_O_CREAT` really clears the creation bit: for every
flags value, the masked flags have an empty `O_CREAT` bit. -/
theorem land_mask_clears_creat (x : Nat) :
    x &&& NOT_O_CREAT &&& O_CREAT = 0 := by
  have h6 : Nat.testBit NOT_O_CREAT 6 = false := by decide
  have hc : O_CREAT = 2 ^ 6 := by decide
  rw [hc, Nat.and_two_pow, Nat.testBit_land, h6, Bool.and_false]
  rfl

/-! Branch lemmas: the value of `openFifo` on each control path of the Go
function, stated over arbitrary arguments. -/

/-- Probe succeeds: `openFifo` goes straight to the open. -/
theorem openFifo_stat_ok (ctx : Ctx) (fs : FS) (fn : String) (flag perm : Nat)
    (hs : fs.stat fn = none) :
    openFifo ctx fs fn flag perm =
      (fs.openFile fn (flag &&& NOT_O_CREAT) 0,
       [FsOp.statOp fn, FsOp.openOp fn (flag &&& NOT_O_CREAT)]) := by
  simp [openFifo, hs, finishOpen]

/-- Probe fails without taking the creation branch: the probe error is
returned as is. -/
theorem openFifo_stat_err (ctx : Ctx) (fs : FS) (fn : String) (flag perm : Nat)
    (e : GoError) (hs : fs.stat fn = some e)
    (hcond : (isNotExist e && (flag &&& O_CREAT != 0)) = false) :
    openFifo ctx fs fn flag perm = (Except.error e, [FsOp.statOp fn]) := by
  simp [openFifo, hs, hcond]

/-- Creation branch, creation succeeds: fifo is created with the masked
permission bits, then the open runs. -/
theorem openFifo_create_ok (ctx : Ctx) (fs : FS) (fn : String) (flag perm : Nat)
    (e : GoError) (hs : fs.stat fn = some e) (hne : isNotExist e = true)
    (hcreat : (flag &&& O_CREAT != 0) = true)
    (hmk : fs.mkfifoSys fn (perm &&& ModePerm) = none) :
    openFifo ctx fs fn flag perm =
      (fs.openFile fn (flag &&& NOT_O_CREAT) 0,
       [FsOp.statOp fn, FsOp.mkfifoOp fn (perm &&& ModePerm),
        FsOp.openOp fn (flag &&& NOT_O_CREAT)]) := by
  simp [openFifo, hs, hne, hcreat, mkfifo, hmk, finishOpen]

/-- Creation branch, creation loses the race to a concurrent creator:
the already-exists failure is swallowed and the open runs. -/
theorem openFifo_create_race (ctx : Ctx) (fs : FS) (fn : String) (flag perm : Nat)
    (e ce : GoError) (hs : fs.stat fn = some e) (hne : isNotExist e = true)
    (hcreat : (flag &&& O_CREAT != 0) = true)
    (hmk : fs.mkfifoSys fn (perm &&& ModePerm) = some ce)
    (hex : isExist ce = true) :
    openFifo ctx fs fn flag perm =
      (fs.openFile fn (flag &&& NOT_O_CREAT) 0,
       [FsOp.statOp fn, FsOp.mkfifoOp fn (perm &&& ModePerm),
        FsOp.openOp fn (flag &&& NOT_O_CREAT)]) := by
  simp [openFifo, hs, hne, hcreat, mkfifo, hmk, hex, finishOpen]

/-- Creation branch, creation fails for a reason other than
already-exists: the creation error is wrapped with context and returned;
no open runs. -/
theorem openFifo_create_fail (ctx : Ctx) (fs : FS) (fn : String) (flag perm : Nat)
    (e ce : GoError) (hs : fs.stat fn = some e) (hne : isNotExist e = true)
    (hcreat : (flag &&& O_CREAT != 0) = true)
    (hmk : fs.mkfifoSys fn (perm &&& ModePerm) = some ce)
    (hex : isExist ce = false) :
    openFifo ctx fs fn flag perm =
      (Except.error (GoError.wrapped ("error creating fifo " ++ fn) ce),
       [FsOp.statOp fn, FsOp.mkfifoOp fn (perm &&& ModePerm)]) := by
  simp [openFifo, hs, hne, hcreat, mkfifo, hmk, hex, finishOpen]

/-- Exhaustive case split: `openFifo` takes one of its four control
paths. -/
theorem openFifo_cases (ctx : Ctx) (fs : FS) (fn : String) (flag perm : Nat) :
    (fs.stat fn = none ∧
      openFifo ctx fs fn flag perm =
        (fs.openFile fn (flag &&& NOT_O_CREAT) 0,
         [FsOp.statOp fn, FsOp.openOp fn (flag &&& NOT_O_CREAT)])) ∨
    (∃ e, fs.stat fn = some e ∧
      openFifo ctx fs fn flag perm = (Except.error e, [FsOp.statOp fn])) ∨
    (∃ e, fs.stat fn = some e ∧
      openFifo ctx fs fn flag perm =
        (fs.openFile fn (flag &&& NOT_O_CREAT) 0,
         [FsOp.statOp fn, FsOp.mkfifoOp fn (perm &&& ModePerm),
          FsOp.openOp fn (flag &&& NOT_O_CREAT)])) ∨
    (∃ e ce, fs.stat fn = some e ∧
      openFifo ctx fs fn flag perm =
        (Except.error (GoError.wrapped ("error creating fifo " ++ fn) ce),
         [FsOp.statOp fn, FsOp.mkfifoOp fn (perm &&& ModePerm)])) := by
  cases hs : fs.stat fn with
  | none => exact Or.inl ⟨rfl, openFifo_stat_ok ctx fs fn flag perm hs⟩
  | some e =>
      cases hcond : (isNotExist e && (flag &&& O_CREAT != 0)) with
      | false =>
          exact Or.inr (Or.inl ⟨e, rfl, openFifo_stat_err ctx fs fn flag perm e hs hcond⟩)
      | true =>
          rw [Bool.and_eq_true] at hcond
          cases hmk : fs.mkfifoSys fn (perm &&& ModePerm) with
          | none =>
              exact Or.inr (Or.inr (Or.inl ⟨e, rfl,
                openFifo_create_ok ctx fs fn flag perm e hs hcond.1 hcond.2 hmk⟩))
          | some ce =>
              cases hex : isExist ce with
              | true =>
                  exact Or.inr (Or.inr (Or.inl ⟨e, rfl,
                    openFifo_create_race ctx fs fn flag perm e ce hs hcond.1 hcond.2 hmk hex⟩))
              | false =>
                  exact Or.inr (Or.inr (Or.inr ⟨e, ce, rfl,
                    openFifo_create_fail ctx fs fn flag perm e ce hs hcond.1 hcond.2 hmk hex⟩))

/-- C1: the cancellation claim fails on the code.  `openFifo` never reads
its context argument, so a context whose cancellation has already been
requested produces exactly the same result and the same syscall trace as
the never-cancelled background context on every filesystem, path, flags
and mode: a pending blocking open is not interruptible, contradicting the
function's own documentation. -/
theorem openFifo_cancellation_has_no_effect (fs : FS) (fn : String) (flag perm : Nat) :
    openFifo Ctx.canceledCtx fs fn flag perm =
      openFifo Ctx.background fs fn flag perm := rfl

/-- C2 counterexample: on a filesystem whose probe fails with a
permission error (not a not-exist error), `New` returns that probe error
raw — a bare permission error, not a wrapper carrying creation-failure
context — refuting the claim that probe errors are wrapped. -/
theorem probe_error_not_wrapped_counterexample :
    (New fsProbeFail "p").fst = Except.error GoError.errPermission ∧
    GoError.isWrapped GoError.errPermission = false :=
  ⟨rfl, rfl⟩

/-- C2 amended: a probe failure that does not take the creation branch
(any failure other than not-exist-with-creation-requested) is propagated
unchanged, with no added context; and when the probe succeeds, the raw
result of the underlying open call is passed through unchanged.  Only the
creation call's failure is ever wrapped. -/
theorem probe_and_open_errors_unwrapped (ctx : Ctx) (fs : FS) (fn : String)
    (flag perm : Nat) :
    (∀ e, fs.stat fn = some e →
      (isNotExist e && (flag &&& O_CREAT != 0)) = false →
      (openFifo ctx fs fn flag perm).fst = Except.error e) ∧
    (fs.stat fn = none →
      (openFifo ctx fs fn flag perm).fst = fs.openFile fn (flag &&& NOT_O_CREAT) 0) := by
  constructor
  · intro e he hcond
    simp [openFifo, he, hcond]
  · intro h
    simp [openFifo, h, finishOpen]

/-- C2 witness: the amended statement evaluated on a concrete filesystem
whose probe fails with a permission error. -/
theorem probe_and_open_errors_unwrapped_witness :
    (openFifo Ctx.background fsProbeFail "q" O_WRONLY 0o600).fst =
      Except.error GoError.errPermission :=
  (probe_and_open_errors_unwrapped Ctx.background fsProbeFail "q" O_WRONLY 0o600).1
    GoError.errPermission rfl rfl

/-- C3: on a path with no entry, `Open` fails with exactly the not-found
probe error; `Open` never performs a fifo-creation syscall on any
filesystem; and every error `Open` returns is exactly the probe error or
exactly the underlying open error — no wrapping context is added. -/
theorem Open_notfound_no_create_no_wrap (fs : FS) (p : String) :
    (∀ e, fs.stat p = some e → isNotExist e = true →
      (Open fs p).fst = Except.error e) ∧
    (∀ q m, FsOp.mkfifoOp q m ∉ (Open fs p).snd) ∧
    (∀ e, (Open fs p).fst = Except.error e →
      fs.stat p = some e ∨ fs.openFile p O_WRONLY 0 = Except.error e) := by
  have hmask : O_WRONLY &&& NOT_O_CREAT = O_WRONLY := by decide
  have hnc : (O_WRONLY &&& O_CREAT != 0) = false := by decide
  cases hs : fs.stat p with
  | none =>
      refine ⟨?_, ?_, ?_⟩
      · intro e he
        exact absurd he (by simp)
      · intro q m
        simp [Open, openFifo, hs, finishOpen]
      · intro e he
        right
        rw [← hmask]
        simpa [Open, openFifo, hs, finishOpen] using he
  | some err =>
      refine ⟨?_, ?_, ?_⟩
      · intro e he _
        cases he
        simp [Open, openFifo, hs, hnc]
      · intro q m
        simp [Open, openFifo, hs, hnc]
      · intro e he
        left
        simp [Open, openFifo, hs, hnc] at he
        rw [he]

/-- C3 witness: on a concrete filesystem with no entries, `Open` returns
the not-exist probe error. -/
theorem Open_notfound_witness :
    (Open fsAbsent "p").fst =
      Except.error (GoError.pathError "stat" "p" GoError.errNotExist) :=
  (Open_notfound_no_create_no_wrap fsAbsent "p").1
    (GoError.pathError "stat" "p" GoError.errNotExist) rfl rfl

/-- C4 counterexample: creation is requested and an entry already exists
at probe time, yet `New` does not succeed: the subsequent open fails with
a permission error, so the call as a whole returns an error, refuting
"CreateFifo succeeds without error" as stated. -/
theorem New_exists_can_still_fail :
    (New fsExistsOpenFail "p").fst = Except.error GoError.errPermission :=
  rfl

/-- C4 amended: the creation phase of `New` raises no error either when
an entry exists at probe time (creation is skipped) or when the creation
call fails because the entity now exists (the race is treated as
success); in both cases `New` returns exactly the result of the
subsequent open call, which may itself fail.  Any other creation failure
is returned wrapped with creation context. -/
theorem New_creation_phase (fs : FS) (p : String) :
    (fs.stat p = none → (New fs p).fst = fs.openFile p O_NONBLOCK 0) ∧
    (∀ e ce, fs.stat p = some e → isNotExist e = true →
      fs.mkfifoSys p 0o600 = some ce → isExist ce = true →
      (New fs p).fst = fs.openFile p O_NONBLOCK 0) ∧
    (∀ e ce, fs.stat p = some e → isNotExist e = true →
      fs.mkfifoSys p 0o600 = some ce → isExist ce = false →
      (New fs p).fst =
        Except.error (GoError.wrapped ("error creating fifo " ++ p) ce)) := by
  have hflag : (O_RDONLY ||| O_CREAT ||| O_NONBLOCK) &&& NOT_O_CREAT = O_NONBLOCK := by
    decide
  have hcreat : ((O_RDONLY ||| O_CREAT ||| O_NONBLOCK) &&& O_CREAT != 0) = true := by
    decide
  have hmode : (0o600 : Nat) &&& ModePerm = 0o600 := by decide
  refine ⟨?_, ?_, ?_⟩
  · intro h
    show (openFifo Ctx.background fs p (O_RDONLY ||| O_CREAT ||| O_NONBLOCK) 0o600).fst = _
    rw [openFifo_stat_ok _ _ _ _ _ h, hflag]
  · intro e ce hstat hne hmk hex
    show (openFifo Ctx.background fs p (O_RDONLY ||| O_CREAT ||| O_NONBLOCK) 0o600).fst = _
    rw [openFifo_create_race _ _ _ _ _ e ce hstat hne hcreat
      (by rw [hmode]; exact hmk) hex, hflag]
  · intro e ce hstat hne hmk hex
    show (openFifo Ctx.background fs p (O_RDONLY ||| O_CREAT ||| O_NONBLOCK) 0o600).fst = _
    rw [openFifo_create_fail _ _ _ _ _ e ce hstat hne hcreat
      (by rw [hmode]; exact hmk) hex]

/-- C4 witness: the amended statement evaluated on the concrete racing
filesystem: the not-exist probe plus already-exists creation failure is
treated as success and `New` returns the open's result. -/
theorem New_creation_phase_witness :
    (New fsRace "p").fst = fsRace.openFile "p" O_NONBLOCK 0 :=
  (New_creation_phase fsRace "p").2.1
    (GoError.pathError "stat" "p" GoError.errNotExist) GoError.errExist
    rfl rfl rfl rfl

/-- C5: `New` invokes the core open routine with a background context,
the flags combination read-only + create + non-blocking, and file mode
0600; and every fifo-creation syscall `New` performs receives exactly the
mode 0600 masked to permission-only bits, which is again 0600. -/
theorem New_flags_and_creation_mode (fs : FS) (p : String) :
    New fs p =
      openFifo Ctx.background fs p (O_RDONLY ||| O_CREAT ||| O_NONBLOCK) 0o600 ∧
    (∀ q m, FsOp.mkfifoOp q m ∈ (New fs p).snd →
      m = (0o600 : Nat) &&& ModePerm ∧ m = 0o600) := by
  have hmode : (0o600 : Nat) &&& ModePerm = 0o600 := by decide
  refine ⟨rfl, ?_⟩
  intro q m hm
  simp only [New] at hm
  rcases openFifo_cases Ctx.background fs p (O_RDONLY ||| O_CREAT ||| O_NONBLOCK) 0o600 with
    ⟨_, heq⟩ | ⟨e, _, heq⟩ | ⟨e, _, heq⟩ | ⟨e, ce, _, heq⟩ <;>
    rw [heq] at hm <;> simp at hm
  · exact ⟨hm.2, by rw [hm.2, hmode]⟩
  · exact ⟨hm.2, by rw [hm.2, hmode]⟩

/-- C5 witness: on the racing filesystem the creation syscall appears in
the trace with mode 0600, and the theorem pins its mode to 0600. -/
theorem New_flags_and_creation_mode_witness :
    (0o600 : Nat) = (0o600 : Nat) &&& ModePerm ∧ (0o600 : Nat) = 0o600 :=
  (New_flags_and_creation_mode fsRace "p").2 "p" 0o600 (by decide)

/-- C6: `IsClosedErr` returns true exactly on a path-operation error
whose cause field is the closed sentinel; every other shape yields false,
and a nil error yields false. -/
theorem IsClosedErr_iff (e : Option GoError) :
    (IsClosedErr e = true ↔
      ∃ op p, e = some (GoError.pathError op p GoError.errClosed)) ∧
    IsClosedErr none = false := by
  refine ⟨?_, rfl⟩
  cases e with
  | none => simp [IsClosedErr]
  | some g => cases g <;> simp [IsClosedErr]

/-- C6 witness: the classifier accepts a concrete closed path error. -/
theorem IsClosedErr_iff_witness :
    IsClosedErr (some (GoError.pathError "read" "f" GoError.errClosed)) = true :=
  ((IsClosedErr_iff (some (GoError.pathError "read" "f" GoError.errClosed))).1).mpr
    ⟨"read", "f", rfl⟩

/-- C7: every open the core routine performs uses flags whose creation
bit is cleared, whatever flags value was passed in: any open operation in
the syscall trace carries flags with an empty `O_CREAT` bit. -/
theorem openFifo_strips_creat_flag (ctx : Ctx) (fs : FS) (fn : String)
    (flag perm : Nat) (p : String) (f : Nat)
    (h : FsOp.openOp p f ∈ (openFifo ctx fs fn flag perm).snd) :
    f &&& O_CREAT = 0 := by
  rcases openFifo_cases ctx fs fn flag perm with
    ⟨_, heq⟩ | ⟨e, _, heq⟩ | ⟨e, _, heq⟩ | ⟨e, ce, _, heq⟩ <;>
    rw [heq] at h <;> simp at h
  all_goals rw [h.2]; exact land_mask_clears_creat flag

/-- C7 witness: the theorem evaluated on a concrete all-succeeding
filesystem: the single open in the trace has its creation bit clear. -/
theorem openFifo_strips_creat_flag_witness :
    (O_WRONLY &&& NOT_O_CREAT) &&& O_CREAT = 0 :=
  openFifo_strips_creat_flag Ctx.background fsOk "p" O_WRONLY 0o600 "p"
    (O_WRONLY &&& NOT_O_CREAT) (by decide)

/-- C8: `Remove` is exactly the underlying deletion call: on every
filesystem and path its result equals the deletion syscall's result
verbatim — errors, including a does-not-exist error, are neither
suppressed, wrapped, nor retried, and the syscall is consulted exactly
once. -/
theorem Remove_propagates_verbatim (fs : FS) (p : String) :
    Remove fs p = fs.remove p ∧
    (fs.remove p = some GoError.errNotExist →
      Remove fs p = some GoError.errNotExist) :=
  ⟨rfl, fun h => h⟩

/-- C8 witness: on a concrete filesystem where deletion fails with
not-exist, `Remove` surfaces exactly that error. -/
theorem Remove_propagates_verbatim_witness :
    Remove fsAbsent "p" = some GoError.errNotExist :=
  (Remove_propagates_verbatim fsAbsent "p").2 rfl

/-- C9: the context argument of the core open routine is behaviourally
inert — any two contexts give identical results and identical syscall
traces for every filesystem, path, flags and mode — and the public entry
points `New` and `Open` always pass the never-cancelled background
context, so the public interface offers no cancellation at all. -/
theorem openFifo_context_inert (ctx1 ctx2 : Ctx) (fs : FS) (fn : String)
    (flag perm : Nat) (p : String) :
    openFifo ctx1 fs fn flag perm = openFifo ctx2 fs fn flag perm ∧
    New fs p =
      openFifo Ctx.background fs p (O_RDONLY ||| O_CREAT ||| O_NONBLOCK) 0o600 ∧
    Open fs p = openFifo Ctx.background fs p O_WRONLY 0o600 :=
  ⟨rfl, rfl, rfl⟩

/-- C10: the closed-error test compares the path error's cause field with
the closed sentinel by identity, not by searching a wrapped chain: a path
error whose cause merely wraps the sentinel is rejected, and any value
that is not a path error — however caused — is rejected. -/
theorem IsClosedErr_identity_not_unwrap (op p m : String) (e : GoError)
    (h : ∀ o q c, e ≠ GoError.pathError o q c) :
    IsClosedErr (some (GoError.pathError op p
      (GoError.wrapped m GoError.errClosed))) = false ∧
    IsClosedErr (some e) = false := by
  refine ⟨rfl, ?_⟩
  cases e <;> first | rfl | exact absurd rfl (h _ _ _)

/-- C10 witness: a path error wrapping the closed sentinel is rejected,
and so is the bare closed sentinel itself (it is not a path error). -/
theorem IsClosedErr_identity_not_unwrap_witness :
    IsClosedErr (some (GoError.pathError "read" "f"
      (GoError.wrapped "file already closed" GoError.errClosed))) = false ∧
    IsClosedErr (some GoError.errClosed) = false :=
  IsClosedErr_identity_not_unwrap "read" "f" "file already closed" GoError.errClosed
    (fun _ _ _ hc => GoError.noConfusion hc)

end Fifo
